import Mathlib

/-!
Shallow embedding of the `seldom_state` state-machine core (files
`src/trigger.rs` and `src/state.rs`).

Rust's mutable references are rendered as explicit state passing:
a trigger `check(&mut self, entity, world: &World) -> Out` becomes a pure
function `Entity → W → σ → σ × Out` over the trigger's private state `σ`,
and `init(&mut self, world: &mut World)` becomes `W → σ → W × σ`.
Rust `Result<T, E>` is `RResult T E`, the `either` crate's `Either` is
`Either`, and a panic (`unwrap` on a failed downcast) is the `none` of an
outer `Option`.
-/

/-- Rust `Result<A, E>`: `Ok` carries the success payload, `Err` the failure
payload. -/
inductive RResult (α ε : Type) where
  | ok : α → RResult α ε
  | err : ε → RResult α ε
deriving DecidableEq, Repr

/-- The `either` crate's `Either<L, R>`, used by the AND/OR combinators to tag
which side a payload came from. -/
inductive Either (α β : Type) where
  | left : α → Either α β
  | right : β → Either α β
deriving DecidableEq, Repr

/-- Helper `RResult.isOk`: whether the result is a success. -/
def RResult.isOk : RResult α ε → Bool
  | .ok _ => true
  | .err _ => false

/-- Swap the two sides of a result, as `NotTrigger::check` does. -/
def RResult.swap : RResult α ε → RResult ε α
  | .ok a => .err a
  | .err e => .ok e

/-- Bevy `Entity`: an opaque id. -/
structure Entity where
  id : Nat
deriving DecidableEq, Repr

/-- Trait `TriggerIn` (trigger.rs:41): the input requested by a trigger,
built from the entity being checked. -/
class TriggerIn (α : Type) where
  from_entity : Entity → α

instance : TriggerIn Unit where
  from_entity _ := ()

instance : TriggerIn Entity where
  from_entity entity := entity

/-- Trait `TriggerOut` (trigger.rs:58): a trigger outcome convertible to a
success/failure result with payloads. -/
class TriggerOut (α : Type) where
  Ok : Type
  Err : Type
  into_result : α → RResult Ok Err

/-- Rust `impl TriggerOut for bool` (trigger.rs:68): unit payloads both sides. -/
instance : TriggerOut Bool where
  Ok := Unit
  Err := Unit
  into_result b := if b then .ok () else .err ()

/-- Rust `impl TriggerOut for Option<T>` (trigger.rs:81): `self.ok_or(())`. -/
instance : TriggerOut (Option α) where
  Ok := α
  Err := Unit
  into_result o := match o with
    | some v => .ok v
    | none => .err ()

/-- Rust `impl TriggerOut for Result<Ok, Err>` (trigger.rs:90): identity. -/
instance : TriggerOut (RResult α ε) where
  Ok := α
  Err := ε
  into_result r := r

/-- Trait `Trigger` (trigger.rs:146), over world type `W`, private state `σ`,
output type `Out` whose `TriggerOut` conversion is the field `intoResult`
with payload types `Ok`/`Err`. `init` may mutate both the world and the
trigger; `check` reads the world and may mutate the trigger. -/
structure Trigger (W σ Out Ok Err : Type) where
  intoResult : Out → RResult Ok Err
  init : W → σ → W × σ
  check : Entity → W → σ → σ × Out

/-- Rust `NotTrigger` (trigger.rs:194): `init` delegates to the inner trigger;
`check` inverts the inner result, swapping the payloads. Its `Out` is
`Result<Err, Ok>`, whose `TriggerOut` conversion is the identity. -/
def NotTrigger (t : Trigger W σ Out Ok Err) : Trigger W σ (RResult Err Ok) Err Ok where
  intoResult := id
  init := t.init
  check := fun entity world s =>
    let r := t.check entity world s
    (r.1,
      match t.intoResult r.2 with
      | .ok ok => .err ok
      | .err err => .ok err)

/-- Rust `AndTrigger` (trigger.rs:215): `init` runs both inner inits, `t` then `u`;
`check` evaluates `t`, short-circuits with `Either::Left` of its error if it
fails (leaving `u` untouched), else evaluates `u`, failing with
`Either::Right` of its error, else succeeds with the pair of payloads. -/
def AndTrigger (t : Trigger W σ₁ Out₁ Ok₁ Err₁) (u : Trigger W σ₂ Out₂ Ok₂ Err₂) :
    Trigger W (σ₁ × σ₂) (RResult (Ok₁ × Ok₂) (Either Err₁ Err₂)) (Ok₁ × Ok₂)
      (Either Err₁ Err₂) where
  intoResult := id
  init := fun world s =>
    let p := t.init world s.1
    let q := u.init p.1 s.2
    (q.1, (p.2, q.2))
  check := fun entity world s =>
    let p := t.check entity world s.1
    match t.intoResult p.2 with
    | .err e₁ => ((p.1, s.2), .err (.left e₁))
    | .ok a =>
      let q := u.check entity world s.2
      match u.intoResult q.2 with
      | .err e₂ => ((p.1, q.1), .err (.right e₂))
      | .ok b => ((p.1, q.1), .ok (a, b))

/-- Rust `OrTrigger` (trigger.rs:244): `init` runs both inner inits, `t` then `u`;
`check` evaluates `t`, succeeding with `Either::Left` of its payload if it
succeeds (leaving `u` untouched), else evaluates `u`, succeeding with
`Either::Right`, else fails with the pair of both errors. -/
def OrTrigger (t : Trigger W σ₁ Out₁ Ok₁ Err₁) (u : Trigger W σ₂ Out₂ Ok₂ Err₂) :
    Trigger W (σ₁ × σ₂) (RResult (Either Ok₁ Ok₂) (Err₁ × Err₂)) (Either Ok₁ Ok₂)
      (Err₁ × Err₂) where
  intoResult := id
  init := fun world s =>
    let p := t.init world s.1
    let q := u.init p.1 s.2
    (q.1, (p.2, q.2))
  check := fun entity world s =>
    let p := t.check entity world s.1
    match t.intoResult p.2 with
    | .ok ok => ((p.1, s.2), .ok (.left ok))
    | .err e₁ =>
      let q := u.check entity world s.2
      match u.intoResult q.2 with
      | .ok ok => ((p.1, q.1), .ok (.right ok))
      | .err e₂ => ((p.1, q.1), .err (e₁, e₂))

/-- A bevy read-only system over world `W`, input `InT`, output `Out`.
`initWorld` models `System::initialize` (bevy machinery external to this
repository: it caches query access metadata, with no effect on component
data); `run_readonly` models `ReadOnlySystem::run_readonly`. A bare
function system runs the function and has identity `initWorld`. -/
structure ReadOnlySystem (W InT Out : Type) where
  initWorld : W → W
  run_readonly : InT → W → Out

/-- Rust `IntoSystem::into_system` for a bare function: the resulting bevy
`FunctionSystem` runs the function itself; its initialization only sets up
query caches, modelled as the identity on the world. -/
def into_system (f : InT → W → Out) : ReadOnlySystem W InT Out where
  initWorld := id
  run_readonly := f

/-- Rust `SystemTrigger` (trigger.rs:165) as a `Trigger` (trigger.rs:167):
`init` delegates to the system's initialization, `check` runs the system
read-only on `In::from_entity(entity)`. The trigger itself carries no state
beyond the system, so its private state is `Unit`. -/
def SystemTrigger [TriggerIn InT] [TriggerOut Out] (t : ReadOnlySystem W InT Out) :
    Trigger W Unit Out (TriggerOut.Ok Out) (TriggerOut.Err Out) where
  intoResult := TriggerOut.into_result
  init := fun world s => (t.initWorld world, s)
  check := fun entity world s => (s, t.run_readonly (TriggerIn.from_entity entity) world)

/-- Rust `IntoTrigger::into_trigger` for a bare read-only system function
(trigger.rs:131): wraps `into_system` of the function in a `SystemTrigger`. -/
def into_trigger [TriggerIn InT] [TriggerOut Out] (f : InT → W → Out) :
    Trigger W Unit Out (TriggerOut.Ok Out) (TriggerOut.Err Out) :=
  SystemTrigger (into_system f)

/-- The `Done` marker component (trigger.rs:274). -/
inductive Done where
  | Success
  | Failure
deriving DecidableEq, Repr

/-- The slice of the bevy `World` these systems touch: the sparse-set table
of `Done` components (one entry per entity that carries the marker). -/
structure World where
  dones : List (Entity × Done)
deriving Repr

/-- Rust `Query<&Done>::get(entity)`: the `Done` component of `entity`, if any. -/
def World.getDone (w : World) (entity : Entity) : Option Done :=
  (w.dones.find? (fun p => p.1 == entity)).map Prod.snd

/-- Rust `Commands::entity(e).remove::<Done>()`: drop `e`'s `Done` component. -/
def World.removeDone (w : World) (entity : Entity) : World :=
  { w with dones := w.dones.filter (fun p => p.1 != entity) }

/-- Rust `done(expected)` (trigger.rs:283): a trigger from the closure
`|In(entity), dones: Query<&Done>| dones.get(entity)
  .map(|&done| expected.is_none() || Some(done) == expected)
  .unwrap_or(false)`.
(`Query::get`'s error for a missing component is collapsed into `Option`.) -/
def done (expected : Option Done) : Trigger World Unit Bool Unit Unit :=
  into_trigger (fun (entity : Entity) (w : World) =>
    ((w.getDone entity).map
      (fun done => expected.isNone || (some done == expected))).getD false)

/-- Rust `on_event` (trigger.rs:294): `reader.read().last().cloned()`. The
`EventReader` is modelled as the list of events of the requested type
received this tick, in arrival order. -/
def on_event (reader : List T) : Option T :=
  reader.getLast?

/-- Rust `remove_done_markers` (trigger.rs:298): for every entity matched by
`Query<Entity, With<Done>>`, remove its `Done` component. -/
def remove_done_markers (w : World) : World :=
  (w.dones.map Prod.fst).foldl World.removeDone w

/-- The two system sets of `StateSet` that trigger.rs touches. -/
inductive StateSet where
  | Transition
  | RemoveDoneMarkers
deriving DecidableEq, Repr

/-- The slice of the bevy `App` that `trigger_plugin` configures: ordering
constraints between `PostUpdate` sets (a pair `(a, b)` records `a.after(b)`)
and the systems added to `PostUpdate`, each tagged with its set. -/
structure App where
  postUpdateSetOrder : List (StateSet × StateSet)
  postUpdateSystems : List ((World → World) × StateSet)

/-- Rust `trigger_plugin` (trigger.rs:22): configures
`StateSet::RemoveDoneMarkers.after(StateSet::Transition)` in `PostUpdate`
and adds `remove_done_markers` in set `StateSet::RemoveDoneMarkers`. -/
def trigger_plugin (app : App) : App where
  postUpdateSetOrder :=
    app.postUpdateSetOrder ++ [(StateSet.RemoveDoneMarkers, StateSet.Transition)]
  postUpdateSystems :=
    app.postUpdateSystems ++ [(remove_done_markers, StateSet.RemoveDoneMarkers)]

/-- A closed universe of `Reflect`-able payload/state types, standing in for
the open set of Rust types that can appear behind `dyn Reflect`. -/
inductive Ty where
  | unit
  | bool
  | nat
  | pair : Ty → Ty → Ty
deriving DecidableEq, Repr

/-- The Lean type a `Ty` code denotes. -/
@[reducible]
def Ty.denote : Ty → Type
  | .unit => Unit
  | .bool => Bool
  | .nat => Nat
  | .pair a b => a.denote × b.denote

/-- A `dyn Reflect` value: a type-erased value tagged with its concrete
type. -/
structure Dyn where
  ty : Ty
  val : ty.denote

/-- Rust `Reflect::downcast_ref::<T>()`: `some` of the value when the erased
value's concrete type is `T`, else `none`. -/
def Dyn.downcast_ref (d : Dyn) (t : Ty) : Option t.denote :=
  if h : d.ty = t then some (h ▸ d.val) else none

/-- A `Box<dyn StateBuilderTyped<T, N>>` (state.rs:61): a function from the
trigger's success payload type `T` to an optional next state of type `N`. -/
structure StateBuilderTyped (T N : Ty) where
  f : T.denote → Option N.denote

/-- Rust `StateBuilder::build` for `Box<dyn StateBuilderTyped<T, N>>`
(state.rs:89): `self(result.downcast_ref().unwrap()).map(|state| ...)`.
The outer `Option` models the panic of `unwrap`: `none` is the panic on a
failed downcast; `some r` is normal return of `r`, the erased optional next
state. -/
def StateBuilder.build (b : StateBuilderTyped T N) (result : Dyn) :
    Option (Option Dyn) :=
  (result.downcast_ref T).map (fun v => (b.f v).map (fun state => ⟨N, state⟩))

/-- A concrete stateless trigger over a `Unit` world returning the constant
boolean `b`, used to instantiate the combinator theorems. -/
def constTrigger (b : Bool) : Trigger Unit Unit Bool Unit Unit :=
  into_trigger (fun (_ : Unit) (_ : Unit) => b)

/-- C8: the three canonical trigger-outcome representations convert to the
success/failure result as specified: a boolean gives `Ok(())` iff it is
`true` and `Err(())` iff it is `false`; an optional value gives `Ok(v)` on
`Some(v)` and `Err(())` on `None`; a result converts by the identity. -/
theorem triggerOut_canonical (α ε : Type) :
    (TriggerOut.into_result true = RResult.ok () ∧
      TriggerOut.into_result false = RResult.err () ∧
      ∀ b : Bool, (TriggerOut.into_result b).isOk = b) ∧
    ((∀ v : α, TriggerOut.into_result (some v) = RResult.ok v) ∧
      TriggerOut.into_result (none : Option α) = RResult.err ()) ∧
    (∀ r : RResult α ε, TriggerOut.into_result r = r) := by
  refine ⟨⟨rfl, rfl, ?_⟩, ⟨fun v => rfl, rfl⟩, fun r => rfl⟩
  intro b
  cases b <;> rfl

/-- C3: `NOT(T).check` is the logical inverse of `T.check` with the payloads
swapped (and the inner trigger's state evolves exactly as under `T.check`;
`init` delegates to `T`), and `NOT(NOT(T)).check`, whose `into_result` view
is the identity, equals `T.check`'s result: double negation swaps the
payloads back. -/
theorem notTrigger_check_spec (t : Trigger W σ Out Ok Err) (entity : Entity)
    (w : W) (s : σ) :
    ((NotTrigger t).check entity w s =
      ((t.check entity w s).1, (t.intoResult (t.check entity w s).2).swap)) ∧
    ((NotTrigger t).init = t.init) ∧
    ((NotTrigger (NotTrigger t)).check entity w s =
      ((t.check entity w s).1, t.intoResult (t.check entity w s).2)) := by
  refine ⟨?_, rfl, ?_⟩ <;>
    cases h : t.intoResult (t.check entity w s).2 <;>
      simp [NotTrigger, RResult.swap, h]

/-- C9: `AND(T,U).init` and `OR(T,U).init` run both inner `init`s, `T` first
and then `U` on the world `T.init` produced, resetting both inner states —
in particular the right-hand trigger is reset even though a short-circuited
`check` may never evaluate it. -/
theorem and_or_init_spec (t : Trigger W σ₁ Out₁ Ok₁ Err₁)
    (u : Trigger W σ₂ Out₂ Ok₂ Err₂) (w : W) (s : σ₁ × σ₂) :
    ((AndTrigger t u).init w s =
      ((u.init (t.init w s.1).1 s.2).1,
        ((t.init w s.1).2, (u.init (t.init w s.1).1 s.2).2))) ∧
    ((OrTrigger t u).init w s =
      ((u.init (t.init w s.1).1 s.2).1,
        ((t.init w s.1).2, (u.init (t.init w s.1).1 s.2).2))) :=
  ⟨rfl, rfl⟩

/-- C7: a bare read-only predicate function becomes a trigger through
`into_trigger`; the trigger's `check` runs the function on the entity's
requested input and the world and returns its outcome unchanged, its
`into_result` view is the function outcome's own `TriggerOut` conversion,
and its `init` is a no-op on the world and the trigger state. -/
theorem into_trigger_spec [TriggerIn InT] [TriggerOut Out] (f : InT → W → Out)
    (entity : Entity) (w : W) :
    ((into_trigger f).check entity w () = ((), f (TriggerIn.from_entity entity) w)) ∧
    ((into_trigger f).init w () = (w, ())) ∧
    ((into_trigger f).intoResult = TriggerOut.into_result) :=
  ⟨rfl, rfl, rfl⟩

/-- C1: `AND(T,U).check` succeeds iff both inner checks succeed in that
evaluation, with the pair of `Ok` payloads; evaluation short-circuits
left-to-right: if `T` fails the outcome is `Err(Left e₁)` with `U` never
checked (`U`'s state is untouched and the whole outcome is independent of
`U`), and if `T` succeeds but `U` fails the outcome is `Err(Right e₂)`. -/
theorem andTrigger_check_spec (t : Trigger W σ₁ Out₁ Ok₁ Err₁)
    (u : Trigger W σ₂ Out₂ Ok₂ Err₂) (entity : Entity) (w : W) (s : σ₁ × σ₂) :
    (((AndTrigger t u).check entity w s).2.isOk = true ↔
      ((t.intoResult (t.check entity w s.1).2).isOk = true ∧
        (u.intoResult (u.check entity w s.2).2).isOk = true)) ∧
    (∀ e₁, t.intoResult (t.check entity w s.1).2 = .err e₁ →
      ((AndTrigger t u).check entity w s =
          (((t.check entity w s.1).1, s.2), .err (.left e₁)) ∧
        ∀ u' : Trigger W σ₂ Out₂ Ok₂ Err₂,
          (AndTrigger t u').check entity w s = (AndTrigger t u).check entity w s)) ∧
    (∀ a e₂, t.intoResult (t.check entity w s.1).2 = .ok a →
      u.intoResult (u.check entity w s.2).2 = .err e₂ →
      (AndTrigger t u).check entity w s =
        (((t.check entity w s.1).1, (u.check entity w s.2).1), .err (.right e₂))) ∧
    (∀ a b, t.intoResult (t.check entity w s.1).2 = .ok a →
      u.intoResult (u.check entity w s.2).2 = .ok b →
      (AndTrigger t u).check entity w s =
        (((t.check entity w s.1).1, (u.check entity w s.2).1), .ok (a, b))) := by
  refine ⟨?_, ?_, ?_, ?_⟩
  · cases ht : t.intoResult (t.check entity w s.1).2 with
    | ok a =>
      cases hu : u.intoResult (u.check entity w s.2).2 with
      | ok b => simp [AndTrigger, ht, hu, RResult.isOk]
      | err e₂ => simp [AndTrigger, ht, hu, RResult.isOk]
    | err e₁ => simp [AndTrigger, ht, RResult.isOk]
  · intro e₁ ht
    exact ⟨by simp [AndTrigger, ht], fun u' => by simp [AndTrigger, ht]⟩
  · intro a e₂ ht hu
    simp [AndTrigger, ht, hu]
  · intro a b ht hu
    simp [AndTrigger, ht, hu]

/-- C1 witness: at the concrete pair of the constantly-false and the
constantly-true trigger, the left failure short-circuits as the theorem
states. -/
theorem andTrigger_check_spec_witness :
    (AndTrigger (constTrigger false) (constTrigger true)).check ⟨0⟩ () ((), ()) =
      (((), ()), .err (.left ())) :=
  ((andTrigger_check_spec (constTrigger false) (constTrigger true)
    ⟨0⟩ () ((), ())).2.1 () rfl).1

/-- C2: `OR(T,U).check` fails iff both inner checks fail, with the pair of
both `Err` payloads; `T` is checked first: if `T` succeeds the outcome is
`Ok(Left ok)` with `U` never checked (`U`'s state is untouched and the whole
outcome is independent of `U`), and if `T` fails but `U` succeeds the
outcome is `Ok(Right ok)`. -/
theorem orTrigger_check_spec (t : Trigger W σ₁ Out₁ Ok₁ Err₁)
    (u : Trigger W σ₂ Out₂ Ok₂ Err₂) (entity : Entity) (w : W) (s : σ₁ × σ₂) :
    (((OrTrigger t u).check entity w s).2.isOk = false ↔
      ((t.intoResult (t.check entity w s.1).2).isOk = false ∧
        (u.intoResult (u.check entity w s.2).2).isOk = false)) ∧
    (∀ ok, t.intoResult (t.check entity w s.1).2 = .ok ok →
      ((OrTrigger t u).check entity w s =
          (((t.check entity w s.1).1, s.2), .ok (.left ok)) ∧
        ∀ u' : Trigger W σ₂ Out₂ Ok₂ Err₂,
          (OrTrigger t u').check entity w s = (OrTrigger t u).check entity w s)) ∧
    (∀ e₁ ok, t.intoResult (t.check entity w s.1).2 = .err e₁ →
      u.intoResult (u.check entity w s.2).2 = .ok ok →
      (OrTrigger t u).check entity w s =
        (((t.check entity w s.1).1, (u.check entity w s.2).1), .ok (.right ok))) ∧
    (∀ e₁ e₂, t.intoResult (t.check entity w s.1).2 = .err e₁ →
      u.intoResult (u.check entity w s.2).2 = .err e₂ →
      (OrTrigger t u).check entity w s =
        (((t.check entity w s.1).1, (u.check entity w s.2).1), .err (e₁, e₂))) := by
  refine ⟨?_, ?_, ?_, ?_⟩
  · cases ht : t.intoResult (t.check entity w s.1).2 with
    | ok ok => simp [OrTrigger, ht, RResult.isOk]
    | err e₁ =>
      cases hu : u.intoResult (u.check entity w s.2).2 with
      | ok ok => simp [OrTrigger, ht, hu, RResult.isOk]
      | err e₂ => simp [OrTrigger, ht, hu, RResult.isOk]
  · intro ok ht
    exact ⟨by simp [OrTrigger, ht], fun u' => by simp [OrTrigger, ht]⟩
  · intro e₁ ok ht hu
    simp [OrTrigger, ht, hu]
  · intro e₁ e₂ ht hu
    simp [OrTrigger, ht, hu]

/-- C2 witness: at the concrete pair of the constantly-true and the
constantly-false trigger, the left success short-circuits as the theorem
states. -/
theorem orTrigger_check_spec_witness :
    (OrTrigger (constTrigger true) (constTrigger false)).check ⟨0⟩ () ((), ()) =
      (((), ()), .ok (.left ())) :=
  ((orTrigger_check_spec (constTrigger true) (constTrigger false)
    ⟨0⟩ () ((), ())).2.1 () rfl).1

/-- Helper: the `TriggerIn` conversion for `Entity` input is the identity. -/
theorem from_entity_entity (entity : Entity) :
    (TriggerIn.from_entity entity : Entity) = entity := rfl

/-- C4: `done(expected)` succeeds iff the entity carries the `Done` marker and
(`expected` is `None`, or the marker's variant equals the expected one);
`done(None)` succeeds on either variant, `done(Some(Done::Success))`
succeeds only on the `Success` variant, and a missing marker is ordinary
trigger failure (`Err(())` through `into_result`), never an error. -/
theorem done_spec (expected : Option Done) (entity : Entity) (w : World) :
    (((done expected).check entity w ()).2 = true ↔
      ∃ d, w.getDone entity = some d ∧ (expected = none ∨ expected = some d)) ∧
    (((done none).check entity w ()).2 = (w.getDone entity).isSome) ∧
    (((done (some Done.Success)).check entity w ()).2 =
      (w.getDone entity == some Done.Success)) ∧
    (w.getDone entity = none →
      (done expected).intoResult ((done expected).check entity w ()).2 = .err ()) := by
  refine ⟨?_, ?_, ?_, ?_⟩
  · cases h : w.getDone entity with
    | none => simp [done, into_trigger, SystemTrigger, into_system, from_entity_entity, h]
    | some d =>
      cases expected with
      | none => simp [done, into_trigger, SystemTrigger, into_system, from_entity_entity, h]
      | some x =>
        simp [done, into_trigger, SystemTrigger, into_system, from_entity_entity, h]
        exact ⟨fun hx => hx.symm, fun hx => hx.symm⟩
  · cases h : w.getDone entity with
    | none => simp [done, into_trigger, SystemTrigger, into_system, from_entity_entity, h]
    | some d => simp [done, into_trigger, SystemTrigger, into_system, from_entity_entity, h]
  · cases h : w.getDone entity with
    | none => simp [done, into_trigger, SystemTrigger, into_system, from_entity_entity, h]
    | some d =>
      cases d <;> simp [done, into_trigger, SystemTrigger, into_system, from_entity_entity, h]
  · intro h
    simp [done, into_trigger, SystemTrigger, into_system, from_entity_entity, h,
      TriggerOut.into_result]

/-- C4 witness: on a world with no `Done` components, `done(None)` fails with
the ordinary `Err(())` outcome. -/
theorem done_spec_witness :
    (done none).intoResult ((done none).check ⟨0⟩ ⟨[]⟩ ()).2 = .err () :=
  (done_spec none ⟨0⟩ ⟨[]⟩).2.2.2 rfl

/-- C10: `on_event` succeeds iff at least one event of the requested type
arrived this tick; its payload is the last such event (all earlier ones in
the same tick are discarded), and with no events it fails. -/
theorem on_event_spec (l : List T) :
    ((on_event l).isSome ↔ l ≠ []) ∧
    (l = [] → TriggerOut.into_result (on_event l) = .err ()) ∧
    (∀ (pre : List T) (x : T), l = pre ++ [x] →
      TriggerOut.into_result (on_event l) = .ok x) := by
  refine ⟨?_, ?_, ?_⟩
  · exact List.getLast?_isSome
  · intro h; subst h; rfl
  · intro pre x h
    subst h
    simp [on_event, List.getLast?_concat, TriggerOut.into_result]

/-- C10 witness: with the two events `1` then `2` arriving in one tick, the
trigger succeeds with payload `2`. -/
theorem on_event_spec_witness :
    TriggerOut.into_result (on_event [1, 2]) = RResult.ok (2 : Nat) :=
  (on_event_spec [1, 2]).2.2 [1] 2 rfl

/-- C6: `StateBuilder::build` on an erased payload whose concrete type is not
the builder's input type `T` panics at the `unwrap` of the failed downcast
(the `none` of the outer `Option`); when the payload's type is `T`, the
downcast cannot fail and `build` returns no next state exactly when the
typed builder function returns `None`, otherwise `Some` of the erased next
state. -/
theorem stateBuilder_build_spec (T N : Ty) (b : StateBuilderTyped T N) :
    (∀ result : Dyn, result.ty ≠ T → StateBuilder.build b result = none) ∧
    (∀ v : T.denote,
      StateBuilder.build b ⟨T, v⟩ =
          some ((b.f v).map (fun state => ⟨N, state⟩)) ∧
        (StateBuilder.build b ⟨T, v⟩ = some none ↔ b.f v = none) ∧
        ∀ state, b.f v = some state →
          StateBuilder.build b ⟨T, v⟩ = some (some ⟨N, state⟩)) := by
  constructor
  · intro result h
    simp [StateBuilder.build, Dyn.downcast_ref, h]
  · intro v
    have hd : Dyn.downcast_ref ⟨T, v⟩ T = some v := by
      simp [Dyn.downcast_ref]
    refine ⟨?_, ?_, ?_⟩
    · simp [StateBuilder.build, hd]
    · cases hf : b.f v <;> simp [StateBuilder.build, hd, hf]
    · intro state hf
      simp [StateBuilder.build, hd, hf]

/-- C6 witness: a `Nat → Option Bool` builder panics on a unit-typed payload
and, on a `Nat`-typed payload, returns the erased built state. -/
theorem stateBuilder_build_spec_witness :
    StateBuilder.build (⟨fun n => some (n == 0)⟩ : StateBuilderTyped .nat .bool)
        ⟨.unit, ()⟩ = none ∧
      StateBuilder.build (⟨fun n => some (n == 0)⟩ : StateBuilderTyped .nat .bool)
        ⟨.nat, 3⟩ = some (some ⟨.bool, false⟩) :=
  ⟨(stateBuilder_build_spec .nat .bool ⟨fun n => some (n == 0)⟩).1 ⟨.unit, ()⟩
      (by decide),
    ((stateBuilder_build_spec .nat .bool ⟨fun n => some (n == 0)⟩).2 3).2.2
      false rfl⟩

/-- Helper: any entry surviving the fold of `removeDone` over a list of
entities was in the original table and its entity is not in the list. -/
theorem removeDone_foldl_mem (L : List Entity) (w : World) (p : Entity × Done)
    (hp : p ∈ (L.foldl World.removeDone w).dones) : p ∈ w.dones ∧ p.1 ∉ L := by
  induction L generalizing w with
  | nil => simpa using hp
  | cons e L ih =>
    rcases ih (w.removeDone e) hp with ⟨hmem, hnot⟩
    rcases List.mem_filter.mp hmem with ⟨hmem', hne⟩
    refine ⟨hmem', ?_⟩
    intro hin
    rcases List.mem_cons.mp hin with h | h
    · simp [h] at hne
    · exact hnot h

/-- Helper: `remove_done_markers` empties the `Done` table. -/
theorem remove_done_markers_dones_nil (w : World) :
    (remove_done_markers w).dones = [] := by
  rw [List.eq_nil_iff_forall_not_mem]
  intro p hp
  rcases removeDone_foldl_mem _ _ _ hp with ⟨hmem, hnot⟩
  exact hnot (List.mem_map_of_mem Prod.fst hmem)

/-- C5: `trigger_plugin` configures the `RemoveDoneMarkers` set to run after
the `Transition` set in `PostUpdate` and registers `remove_done_markers`
in the `RemoveDoneMarkers` set; running `remove_done_markers` after any
transition-phase mutation leaves no entity with a `Done` marker, so no
marker attached before that phase survives into the next tick. -/
theorem trigger_plugin_spec (app : App) (transitionPhase : World → World)
    (w : World) (entity : Entity) :
    ((StateSet.RemoveDoneMarkers, StateSet.Transition) ∈
      (trigger_plugin app).postUpdateSetOrder) ∧
    ((remove_done_markers, StateSet.RemoveDoneMarkers) ∈
      (trigger_plugin app).postUpdateSystems) ∧
    (remove_done_markers (transitionPhase w)).getDone entity = none := by
  refine ⟨?_, ?_, ?_⟩
  · simp [trigger_plugin]
  · simp [trigger_plugin]
  · simp [World.getDone, remove_done_markers_dones_nil]
